import Mathlib

set_option maxRecDepth 40000

/-!
Shallow embedding of the ALN protocol core (`src/protocol/ALNSpec.js`) and the
planning kernel (`src/core/ALNKernel.js`): the primitive/shape validators, the
message-envelope validator, the envelope factory, and the `reason` pipeline
with its SHA-256 based plan identifier.

JavaScript values are modelled by the inductive `JSValue`; machine doubles are
modelled as exact rationals plus the IEEE special values the source code
distinguishes through `Number.isFinite` (no claim depends on rounding or on
the decimal rendering of a non-integer number).
-/

namespace ALN

/-- A JavaScript number as far as the source inspects one: a finite value, or
one of the special values that `Number.isFinite` rejects. -/
inductive JSNumber where
  | finite (q : ℚ)
  | nan
  | inf
  | negInf
deriving DecidableEq, Repr

/-- An untyped JavaScript value, to the depth the validators and the kernel
inspect values.  Object fields are kept in insertion order, as
`Object.keys`/`Object.entries` enumerate them.  `func` is an opaque function
value — in particular an inherited `Object.prototype` method; validation only
ever inspects its `typeof`, never calls it. -/
inductive JSValue where
  | undefined
  | null
  | bool (b : Bool)
  | num (n : JSNumber)
  | str (s : String)
  | obj (fields : List (String × JSValue))
  | arr (elems : List JSValue)
  | func

/-- JavaScript `typeof` on the modelled values. -/
def jsTypeof : JSValue → String
  | .undefined => "undefined"
  | .null => "object"
  | .bool _ => "boolean"
  | .num _ => "number"
  | .str _ => "string"
  | .obj _ => "object"
  | .arr _ => "object"
  | .func => "function"

/-- JavaScript truthiness, as used by `||`, `if (...)` and `Boolean(...)`. -/
def toBool : JSValue → Bool
  | .undefined => false
  | .null => false
  | .bool b => b
  | .num (.finite q) => if q = 0 then false else true
  | .num .nan => false
  | .num .inf => true
  | .num .negInf => true
  | .str s => if s = "" then false else true
  | .obj _ => true
  | .arr _ => true
  | .func => true

/-- Decimal rendering of a JS number.  The exact shortest-round-trip float
formatting of JavaScript is not modelled; integers render exactly and no
claim depends on the rendering of a non-integer value. -/
def jsNumberToString : JSNumber → String
  | .nan => "NaN"
  | .inf => "Infinity"
  | .negInf => "-Infinity"
  | .finite q => if q.den = 1 then toString q.num else toString q.num ++ "/" ++ toString q.den

mutual

/-- JavaScript `String(value)` conversion on the modelled values.
`String(function)` yields the function's source text, which the opaque
function value cannot carry; no claim depends on that rendering. -/
def jsToString : JSValue → String
  | .undefined => "undefined"
  | .null => "null"
  | .bool b => if b then "true" else "false"
  | .num n => jsNumberToString n
  | .str s => s
  | .obj _ => "[object Object]"
  | .arr es => jsJoinComma es
  | .func => "function"

/-- `Array.prototype.toString` joins elements with commas, rendering `null`
and `undefined` elements as the empty string. -/
def jsJoinComma : List JSValue → String
  | [] => ""
  | [e] => jsElemString e
  | e :: e2 :: es => jsElemString e ++ "," ++ jsJoinComma (e2 :: es)

/-- Element rendering inside an array-to-string join. -/
def jsElemString : JSValue → String
  | .undefined => ""
  | .null => ""
  | v => jsToString v

end

/-- Own enumerable string-keyed entries, as `Object.entries`/object spread
enumerate them (array and string indices included, primitives have none). -/
def ownEntries : JSValue → List (String × JSValue)
  | .obj fs => fs
  | .arr es => es.enum.map fun p => (toString p.1, p.2)
  | .str s => s.data.enum.map fun p => (toString p.1, JSValue.str (String.singleton p.2))
  | _ => []

/-- `Object.keys`. -/
def ownKeys (v : JSValue) : List String :=
  (ownEntries v).map Prod.fst

/-! ## The ALN specification registry (`ALNSpec.js`, constants) -/

namespace ALNPrimitives

def STRING : String := "aln::string"
def NUMBER : String := "aln::number"
def BOOLEAN : String := "aln::boolean"
def OBJECT : String := "aln::object"
def ARRAY : String := "aln::array"
def VIRTUAL_OBJECT : String := "aln::virtual_object"
def INTENT : String := "aln::intent"
def PLAN : String := "aln::plan"
def SIGNAL : String := "aln::signal"

end ALNPrimitives

namespace ALNMessageKinds

def INTENT_REQUEST : String := "aln::intent_request"
def INTENT_PLAN : String := "aln::intent_plan"
def EXECUTION_RESULT : String := "aln::execution_result"
def ERROR : String := "aln::error"
def HEARTBEAT : String := "aln::heartbeat"
def SPEC_QUERY : String := "aln::spec_query"
def SPEC_RESPONSE : String := "aln::spec_response"

end ALNMessageKinds

/-- `Object.values(ALNMessageKinds)` in declaration order, which is the
insertion order of the `allowedKinds` set in `validateMessageEnvelope`. -/
def allowedKindsList : List String :=
  [ALNMessageKinds.INTENT_REQUEST, ALNMessageKinds.INTENT_PLAN,
   ALNMessageKinds.EXECUTION_RESULT, ALNMessageKinds.ERROR,
   ALNMessageKinds.HEARTBEAT, ALNMessageKinds.SPEC_QUERY,
   ALNMessageKinds.SPEC_RESPONSE]

/-- The intent-bearing message kinds (`intentKinds` in
`validateMessageEnvelope`). -/
def intentKindsList : List String :=
  [ALNMessageKinds.INTENT_REQUEST, ALNMessageKinds.INTENT_PLAN,
   ALNMessageKinds.EXECUTION_RESULT]

/-- One entry of `ALNSpec.intents`. -/
structure IntentSpec where
  description : String
  inputShape : List (String × String)
  outputShape : List (String × String)
deriving DecidableEq, Repr

/-- `ALNSpec.intents`: the three registered intents, in declaration order. -/
def ALNSpecIntents : List (String × IntentSpec) :=
  [("aln::define_virtual_object",
    ⟨"Define or update a virtual-object in the global registry.",
     [("name", ALNPrimitives.STRING), ("description", ALNPrimitives.STRING),
      ("schema", ALNPrimitives.OBJECT), ("tags", ALNPrimitives.ARRAY)],
     [("id", ALNPrimitives.STRING), ("name", ALNPrimitives.STRING)]⟩),
   ("aln::plan_repository",
    ⟨"Create a repository plan including files, workflows, and policies.",
     [("description", ALNPrimitives.STRING), ("constraints", ALNPrimitives.OBJECT)],
     [("planId", ALNPrimitives.STRING), ("files", ALNPrimitives.ARRAY),
      ("workflows", ALNPrimitives.ARRAY)]⟩),
   ("aln::interop_python",
    ⟨"Request a Python operation compatible with ML systems and notebooks.",
     [("sessionId", ALNPrimitives.STRING), ("code", ALNPrimitives.STRING),
      ("ioContract", ALNPrimitives.OBJECT)],
     [("sessionId", ALNPrimitives.STRING), ("stdout", ALNPrimitives.STRING),
      ("stderr", ALNPrimitives.STRING)]⟩)]

/-! ## The shape validator (`ALNSpec.js`, `validatePrimitive`/`validateShape`) -/

/-- `primitiveLabel`: human-readable primitive name for error messages. -/
def primitiveLabel (primitive : String) : String :=
  if primitive = ALNPrimitives.STRING then "string"
  else if primitive = ALNPrimitives.NUMBER then "number"
  else if primitive = ALNPrimitives.BOOLEAN then "boolean"
  else if primitive = ALNPrimitives.OBJECT then "object"
  else if primitive = ALNPrimitives.ARRAY then "array"
  else if primitive = ALNPrimitives.VIRTUAL_OBJECT then "virtual_object"
  else if primitive = ALNPrimitives.INTENT then "intent"
  else if primitive = ALNPrimitives.PLAN then "plan"
  else if primitive = ALNPrimitives.SIGNAL then "signal"
  else primitive

/-- Result record of `validatePrimitive`: `{valid, error?}`. -/
structure PrimResult where
  valid : Bool
  error : Option String
deriving DecidableEq, Repr

/-- `validatePrimitive(value, primitive)`: structural check of one value
against one ALN primitive tag. -/
def validatePrimitive (value : JSValue) (primitive : String) : PrimResult :=
  if primitive = ALNPrimitives.STRING then
    match value with
    | .str _ => ⟨true, none⟩
    | v => ⟨false, some ("Expected string for " ++ primitive ++ ", got " ++ jsTypeof v)⟩
  else if primitive = ALNPrimitives.NUMBER then
    match value with
    | .num (.finite _) => ⟨true, none⟩
    | v => ⟨false, some ("Expected finite number for " ++ primitive ++ ", got " ++ jsToString v)⟩
  else if primitive = ALNPrimitives.BOOLEAN then
    match value with
    | .bool _ => ⟨true, none⟩
    | v => ⟨false, some ("Expected boolean for " ++ primitive ++ ", got " ++ jsTypeof v)⟩
  else if primitive = ALNPrimitives.OBJECT then
    match value with
    | .obj _ => ⟨true, none⟩
    | .arr _ => ⟨false, some ("Expected object for " ++ primitive ++ ", got array")⟩
    | v => ⟨false, some ("Expected object for " ++ primitive ++ ", got " ++ jsTypeof v)⟩
  else if primitive = ALNPrimitives.ARRAY then
    match value with
    | .arr _ => ⟨true, none⟩
    | v => ⟨false, some ("Expected array for " ++ primitive ++ ", got " ++ jsTypeof v)⟩
  else if primitive = ALNPrimitives.VIRTUAL_OBJECT ∨ primitive = ALNPrimitives.INTENT
      ∨ primitive = ALNPrimitives.PLAN ∨ primitive = ALNPrimitives.SIGNAL then
    match value with
    | .obj _ => ⟨true, none⟩
    | .arr _ => ⟨true, none⟩
    | v => ⟨false, some ("Expected structured object for " ++ primitive ++ ", got " ++ jsTypeof v)⟩
  else
    ⟨false, some ("Unknown primitive type: " ++ primitive)⟩

/-- Result record of the list-returning validators: `{valid, errors}`. -/
structure ShapeResult where
  valid : Bool
  errors : List String
deriving DecidableEq, Repr

def missingFieldMsg (field primitive : String) : String :=
  "Missing required field \"" ++ field ++ "\" (expected " ++ primitiveLabel primitive ++ ")"

def invalidFieldMsg (field : String) (err : Option String) : String :=
  "Field \"" ++ field ++ "\" invalid: " ++ err.getD "undefined"

def unexpectedFieldMsg (key : String) : String :=
  "Unexpected field \"" ++ key ++ "\" not defined in shape"

/-- The property names of `Object.prototype` other than the `__proto__`
accessor: all are built-in functions, so a property get for one of these
names on a plain object with no such own key yields a function. -/
def objectProtoMembers : List String :=
  ["constructor", "hasOwnProperty", "isPrototypeOf", "propertyIsEnumerable",
   "toLocaleString", "toString", "valueOf", "__defineGetter__",
   "__defineSetter__", "__lookupGetter__", "__lookupSetter__"]

/-- What a property get on a plain object finds on the prototype chain when
the key is not an own key: `Object.prototype` itself for the `__proto__`
accessor (modelled as an object with no enumerable own entries, which is what
`Object.entries`/`JSON.stringify` see of it), a built-in function for the
other `Object.prototype` members, nothing otherwise. -/
def protoLookup (k : String) : Option JSValue :=
  if k = "__proto__" then some (.obj [])
  else if objectProtoMembers.contains k then some .func
  else none

/-- JavaScript `k in o` for a plain object: own key or inherited
`Object.prototype` member. -/
def jsIn (fields : List (String × JSValue)) (k : String) : Bool :=
  (fields.lookup k).isSome || (protoLookup k).isSome

/-- JavaScript `o[k]` for a plain object: the own value when the key is an
own key (even with value `undefined`), else the inherited `Object.prototype`
member, else `undefined`. -/
def jsIndex (fields : List (String × JSValue)) (k : String) : JSValue :=
  match fields.lookup k with
  | some v => v
  | none => (protoLookup k).getD .undefined

/-- The (at most one) error the `for (const [field, primitive] of
Object.entries(shape))` loop body of `validateShape` pushes for one shape
entry: `!(field in payload)` pushes the missing-field error (`in` consults
the prototype chain, so an `Object.prototype` key is never missing), else
`payload[field]` — own or inherited — is checked against the tag. -/
def shapeFieldError (fields : List (String × JSValue)) (fp : String × String) : Option String :=
  if !(jsIn fields fp.1) then some (missingFieldMsg fp.1 fp.2)
  else
    let r := validatePrimitive (jsIndex fields fp.1) fp.2
    if r.valid then none else some (invalidFieldMsg fp.1 r.error)

/-- The errors the extra-key loop of `validateShape` pushes when
`allowExtraKeys` is false: one per payload key outside the shape. -/
def extraKeyErrors (fields : List (String × JSValue)) (shape : List (String × String))
    (allowExtraKeys : Bool) : List String :=
  if allowExtraKeys then []
  else (((fields.map Prod.fst).filter
          (fun k => !((shape.map Prod.fst).contains k))).map unexpectedFieldMsg)

/-- `validateShape(payload, shape, allowExtraKeys)`: a non-array object payload
is checked field by field against the shape (with JavaScript's
prototype-chain `in`/get semantics per field), accumulating every error; any
other payload fails immediately with a single error.  The extra-key loop uses
`Object.keys`, so only own enumerable keys count as unexpected. -/
def validateShape (payload : JSValue) (shape : List (String × String))
    (allowExtraKeys : Bool) : ShapeResult :=
  match payload with
  | .obj fields =>
    let errors := shape.filterMap (shapeFieldError fields)
      ++ extraKeyErrors fields shape allowExtraKeys
    ⟨errors.length == 0, errors⟩
  | .arr _ => ⟨false, ["Payload must be an object, got array"]⟩
  | p => ⟨false, ["Payload must be an object, got " ++ jsTypeof p]⟩

/-- `validateIntentInput(intentName, inputPayload, allowExtraKeys)`.
Modelling note: for an intent name colliding with an inherited
`Object.prototype` member (e.g. `"toString"`), the source's
`ALNSpec.intents[intentName]` is a truthy function, so it dereferences
`intent.inputShape` (`undefined`) and throws a TypeError inside
`Object.entries`; the model folds that non-result into the unknown-intent
failure — in both, such a name never validates successfully, so the success
region (`valid = true` exactly for the three registered names with
shape-valid payloads) is identical. -/
def validateIntentInput (intentName : String) (inputPayload : JSValue)
    (allowExtraKeys : Bool) : ShapeResult :=
  match ALNSpecIntents.lookup intentName with
  | none => ⟨false, ["Unknown intent \"" ++ intentName ++ "\""]⟩
  | some intent => validateShape inputPayload intent.inputShape allowExtraKeys

/-- `validateIntentOutput(intentName, outputPayload, allowExtraKeys)` (same
modelling note as `validateIntentInput`). -/
def validateIntentOutput (intentName : String) (outputPayload : JSValue)
    (allowExtraKeys : Bool) : ShapeResult :=
  match ALNSpecIntents.lookup intentName with
  | none => ⟨false, ["Unknown intent \"" ++ intentName ++ "\""]⟩
  | some intent => validateShape outputPayload intent.outputShape allowExtraKeys

/-! ## The envelope validator (`ALNSpec.js`, `validateMessageEnvelope`) -/

/-- Property read `message.k` on an object: `undefined` when the key is
absent. -/
def jsGet (fields : List (String × JSValue)) (k : String) : JSValue :=
  (fields.lookup k).getD .undefined

/-- `typeof v === "string" && v.length > 0`. -/
def isNonEmptyString : JSValue → Bool
  | .str s => !(s == "")
  | _ => false

/-- The (possibly empty) error contribution of the `id` rule. -/
def envIdErrors (fields : List (String × JSValue)) : List String :=
  if isNonEmptyString (jsGet fields "id") then []
  else ["Field \"id\" must be a non-empty string"]

def kindErrorMsg : String :=
  "Field \"kind\" must be one of " ++ String.intercalate ", " allowedKindsList

/-- The error contribution of the `kind` rule. -/
def envKindErrors (fields : List (String × JSValue)) : List String :=
  match jsGet fields "kind" with
  | .str s => if allowedKindsList.contains s then [] else [kindErrorMsg]
  | _ => [kindErrorMsg]

/-- The error contribution of the `timestamp` rule
(`typeof === "number" && Number.isFinite`). -/
def envTimestampErrors (fields : List (String × JSValue)) : List String :=
  match jsGet fields "timestamp" with
  | .num (.finite _) => []
  | _ => ["Field \"timestamp\" must be a finite number in epoch milliseconds"]

/-- The error contribution of the `payload` rule
(`typeof === "object" && !== null`; arrays pass). -/
def envPayloadErrors (fields : List (String × JSValue)) : List String :=
  match jsGet fields "payload" with
  | .obj _ => []
  | .arr _ => []
  | _ => ["Field \"payload\" must be a non-null object"]

/-- The error contribution of the `meta` rule: checked only when the key is
present; then it must be a non-null non-array object. -/
def envMetaErrors (fields : List (String × JSValue)) : List String :=
  match fields.lookup "meta" with
  | none => []
  | some (.obj _) => []
  | some _ => ["Field \"meta\", if present, must be a non-null object"]

/-- The message kind, when it is one of the three intent-bearing kinds
(`intentKinds.has(message.kind)`). -/
def intentKindOf (fields : List (String × JSValue)) : Option String :=
  match jsGet fields "kind" with
  | .str s => if intentKindsList.contains s then some s else none
  | _ => none

def intentStringErrMsg (kind : String) : String :=
  "Field \"intent\" must be a non-empty string for kind " ++ kind

def unknownIntentErrMsg (intent kind : String) : String :=
  "Unknown intent \"" ++ intent ++ "\" for message kind " ++ kind

/-- Truthiness of `ALNSpec.intents[name]`: a registered own entry, or an
inherited `Object.prototype` member (the frozen `intents` object still
inherits from `Object.prototype`, so names like `"toString"` or
`"__proto__"` find a truthy function or the prototype object). -/
def intentsMemberTruthy (name : String) : Bool :=
  (ALNSpecIntents.lookup name).isSome || (protoLookup name).isSome

/-- The error contribution of the `intent` rule: for an intent-bearing kind,
the non-empty-string check, `else` the registry check
(`!ALNSpec.intents[message.intent]`, a prototype-chain get) — an `else if`
in the source, so at most one of the two errors is ever pushed. -/
def envIntentErrors (fields : List (String × JSValue)) : List String :=
  match intentKindOf fields with
  | none => []
  | some k =>
    match jsGet fields "intent" with
    | .str s =>
      if s = "" then [intentStringErrMsg k]
      else if intentsMemberTruthy s then []
      else [unknownIntentErrMsg s k]
    | _ => [intentStringErrMsg k]

/-- The five non-intent rule contributions of `validateMessageEnvelope`, in
the order the source pushes them. -/
def envNonIntentErrors (fields : List (String × JSValue)) : List String :=
  envIdErrors fields ++ envKindErrors fields ++ envTimestampErrors fields
    ++ envPayloadErrors fields ++ envMetaErrors fields

/-- `validateMessageEnvelope(message)`: a non-array object message is checked
against every envelope rule independently, accumulating every error; any
other message fails immediately with a single error. -/
def validateMessageEnvelope (message : JSValue) : ShapeResult :=
  match message with
  | .obj fields =>
    let errors := envNonIntentErrors fields ++ envIntentErrors fields
    ⟨errors.length == 0, errors⟩
  | _ => ⟨false, ["Message must be an object"]⟩

/-! ## The envelope factory (`ALNSpec.js`, `createIntentRequest` etc.) -/

/-- The two error classes the factory can raise: shape validation of the
payload (`Invalid input for intent ...`), and the defensive envelope
re-validation (`Invalid envelope: ...`). -/
inductive FactoryError where
  | validationError (msg : String)
  | envelopeError (msg : String)
deriving DecidableEq, Repr

/-- The envelope object literal of `createIntentRequest`, with keys in source
order; `meta` is included only when truthy (`...(meta ? { meta } : {})`). -/
def intentRequestEnvelope (id : JSValue) (intentName : String) (now : ℚ)
    (inputPayload : JSValue) (meta : JSValue) : JSValue :=
  .obj ([("id", id), ("kind", .str ALNMessageKinds.INTENT_REQUEST),
         ("intent", .str intentName), ("timestamp", .num (.finite now)),
         ("payload", inputPayload)]
        ++ (if toBool meta then [("meta", meta)] else []))

/-- `createIntentRequest(id, intentName, inputPayload, meta)`: shape-validate
the payload, assemble the envelope (with `Date.now()` passed explicitly as
`now`), then defensively re-validate the whole envelope. -/
def createIntentRequest (id : JSValue) (intentName : String) (inputPayload : JSValue)
    (meta : JSValue) (now : ℚ) : Except FactoryError JSValue :=
  let inputValidation := validateIntentInput intentName inputPayload false
  if inputValidation.valid then
    let envelope := intentRequestEnvelope id intentName now inputPayload meta
    let envelopeValidation := validateMessageEnvelope envelope
    if envelopeValidation.valid then .ok envelope
    else .error (.envelopeError ("Invalid envelope: "
      ++ String.intercalate "; " envelopeValidation.errors))
  else .error (.validationError ("Invalid input for intent \"" ++ intentName
    ++ "\": " ++ String.intercalate "; " inputValidation.errors))

/-! ## SHA-256 (the `crypto.createHash("sha256")` used by `_generatePlanId`)

Executable FIPS 180-4 SHA-256 over byte lists, with 32-bit words as `Nat`
reduced mod `2^32`. -/

/-- Reduce to a 32-bit word. -/
def w32 (x : Nat) : Nat := x % 4294967296

/-- Right rotation of a 32-bit word. -/
def rotr (n x : Nat) : Nat := w32 ((x >>> n) ||| (x <<< (32 - n)))

def bsig0 (x : Nat) : Nat := (rotr 2 x) ^^^ (rotr 13 x) ^^^ (rotr 22 x)

def bsig1 (x : Nat) : Nat := (rotr 6 x) ^^^ (rotr 11 x) ^^^ (rotr 25 x)

def ssig0 (x : Nat) : Nat := (rotr 7 x) ^^^ (rotr 18 x) ^^^ (x >>> 3)

def ssig1 (x : Nat) : Nat := (rotr 17 x) ^^^ (rotr 19 x) ^^^ (x >>> 10)

/-- `Ch(x, y, z)`; bitwise complement as xor against the 32-bit mask. -/
def chF (x y z : Nat) : Nat := (x &&& y) ^^^ ((x ^^^ 4294967295) &&& z)

def majF (x y z : Nat) : Nat := (x &&& y) ^^^ (x &&& z) ^^^ (y &&& z)

/-- The 64 SHA-256 round constants. -/
def sha256K : List Nat :=
  [1116352408, 1899447441, 3049323471, 3921009573, 961987163, 1508970993,
   2453635748, 2870763221, 3624381080, 310598401, 607225278, 1426881987,
   1925078388, 2162078206, 2614888103, 3248222580, 3835390401, 4022224774,
   264347078, 604807628, 770255983, 1249150122, 1555081692, 1996064986,
   2554220882, 2821834349, 2952996808, 3210313671, 3336571891, 3584528711,
   113926993, 338241895, 666307205, 773529912, 1294757372, 1396182291,
   1695183700, 1986661051, 2177026350, 2456956037, 2730485921, 2820302411,
   3259730800, 3345764771, 3516065817, 3600352804, 4094571909, 275423344,
   430227734, 506948616, 659060556, 883997877, 958139571, 1322822218,
   1537002063, 1747873779, 1955562222, 2024104815, 2227730452, 2361852424,
   2428436474, 2756734187, 3204031479, 3329325298]

/-- Big-endian 8-byte encoding of the message bit length. -/
def lenBytes8 (n : Nat) : List Nat :=
  [(n >>> 56) % 256, (n >>> 48) % 256, (n >>> 40) % 256, (n >>> 32) % 256,
   (n >>> 24) % 256, (n >>> 16) % 256, (n >>> 8) % 256, n % 256]

/-- SHA-256 padding: `0x80`, zeros to 56 mod 64, then the bit length. -/
def sha256pad (msg : List Nat) : List Nat :=
  let L := msg.length
  msg ++ [128] ++ List.replicate ((119 - (L % 64)) % 64) 0 ++ lenBytes8 (8 * L)

/-- Pack bytes into big-endian 32-bit words. -/
def bytesToWords : List Nat → List Nat
  | a :: b :: c :: d :: rest => (((a * 256 + b) * 256 + c) * 256 + d) :: bytesToWords rest
  | _ => []

/-- Split a word list into 16-word blocks. -/
def wordsToBlocks : List Nat → List (List Nat)
  | a0 :: a1 :: a2 :: a3 :: a4 :: a5 :: a6 :: a7 :: a8 :: a9 :: a10 :: a11
      :: a12 :: a13 :: a14 :: a15 :: rest =>
    [a0, a1, a2, a3, a4, a5, a6, a7, a8, a9, a10, a11, a12, a13, a14, a15]
      :: wordsToBlocks rest
  | _ => []

/-- Extend the 16-word block to the 64-word message schedule (`fuel` = how
many words remain to append). -/
def extendW (ws : Array Nat) : Nat → Array Nat
  | 0 => ws
  | fuel + 1 =>
    let t := ws.size
    let next := w32 (ssig1 (ws.getD (t - 2) 0) + ws.getD (t - 7) 0
      + ssig0 (ws.getD (t - 15) 0) + ws.getD (t - 16) 0)
    extendW (ws.push next) fuel

/-- The eight working variables / hash state. -/
structure Hash8 where
  a : Nat
  b : Nat
  c : Nat
  d : Nat
  e : Nat
  f : Nat
  g : Nat
  h : Nat
deriving DecidableEq, Repr

/-- Initial SHA-256 hash value. -/
def sha256H0 : Hash8 :=
  ⟨1779033703, 3144134277, 1013904242, 2773480762, 1359893119, 2600822924,
   528734635, 1541459225⟩

/-- One compression round, consuming a `(K, W)` pair. -/
def compressStep (st : Hash8) (kw : Nat × Nat) : Hash8 :=
  let t1 := w32 (st.h + bsig1 st.e + chF st.e st.f st.g + kw.1 + kw.2)
  let t2 := w32 (bsig0 st.a + majF st.a st.b st.c)
  ⟨w32 (t1 + t2), st.a, st.b, st.c, w32 (st.d + t1), st.e, st.f, st.g⟩

/-- Process one 16-word block. -/
def processBlock (hs : Hash8) (block : List Nat) : Hash8 :=
  let ws := extendW (Array.mk block) 48
  let st := (sha256K.zip ws.toList).foldl compressStep hs
  ⟨w32 (hs.a + st.a), w32 (hs.b + st.b), w32 (hs.c + st.c), w32 (hs.d + st.d),
   w32 (hs.e + st.e), w32 (hs.f + st.f), w32 (hs.g + st.g), w32 (hs.h + st.h)⟩

/-- SHA-256 digest of a byte list, as eight 32-bit words. -/
def sha256words (msg : List Nat) : List Nat :=
  let h := (wordsToBlocks (bytesToWords (sha256pad msg))).foldl processBlock sha256H0
  [h.a, h.b, h.c, h.d, h.e, h.f, h.g, h.h]

def hexDigit (n : Nat) : Char :=
  if n < 10 then Char.ofNat (48 + n) else Char.ofNat (87 + n)

/-- Lowercase hex rendering of one 32-bit word (8 digits). -/
def word8Hex (x : Nat) : String :=
  String.mk [hexDigit ((x >>> 28) % 16), hexDigit ((x >>> 24) % 16),
             hexDigit ((x >>> 20) % 16), hexDigit ((x >>> 16) % 16),
             hexDigit ((x >>> 12) % 16), hexDigit ((x >>> 8) % 16),
             hexDigit ((x >>> 4) % 16), hexDigit (x % 16)]

/-- `.digest("hex")`: the 64-character lowercase hex digest. -/
def sha256hex (msg : List Nat) : String :=
  String.join ((sha256words msg).map word8Hex)

/-- UTF-8 encoding of one character (how `hash.update(string)` encodes). -/
def utf8Char (c : Char) : List Nat :=
  let n := c.toNat
  if n < 128 then [n]
  else if n < 2048 then [192 ||| (n >>> 6), 128 ||| (n &&& 63)]
  else if n < 65536 then
    [224 ||| (n >>> 12), 128 ||| ((n >>> 6) &&& 63), 128 ||| (n &&& 63)]
  else
    [240 ||| (n >>> 18), 128 ||| ((n >>> 12) &&& 63), 128 ||| ((n >>> 6) &&& 63),
     128 ||| (n &&& 63)]

/-- UTF-8 bytes of a string. -/
def utf8Bytes (s : String) : List Nat :=
  s.data.flatMap utf8Char

/-! ## JSON serialization (the `JSON.stringify` used by
`_inferEnvironmentHints`) -/

/-- JSON string escaping for one character.  The `\uXXXX` escapes of other
control characters are not modelled; no claim depends on them. -/
def jsonEscapeChar (c : Char) : String :=
  if c = '"' then "\\\""
  else if c = '\\' then "\\\\"
  else if c = '\n' then "\\n"
  else if c = '\r' then "\\r"
  else if c = '\t' then "\\t"
  else String.singleton c

def jsonQuote (s : String) : String :=
  "\"" ++ String.join (s.data.map jsonEscapeChar) ++ "\""

def commaJoin (xs : List String) : String := String.intercalate "," xs

mutual

/-- `JSON.stringify`: `none` is JavaScript `undefined` (returned for
`undefined` and for functions); `NaN`/`Infinity` serialize as `null`. -/
def jsonStringify : JSValue → Option String
  | .undefined => none
  | .func => none
  | .null => some "null"
  | .bool b => some (if b then "true" else "false")
  | .num (.finite q) => some (jsNumberToString (.finite q))
  | .num _ => some "null"
  | .str s => some (jsonQuote s)
  | .arr es => some ("[" ++ commaJoin (jsonArrItems es) ++ "]")
  | .obj fs => some ("\x7b" ++ commaJoin (jsonObjItems fs) ++ "\x7d")

/-- Array items: an element that stringifies to `undefined` becomes `null`. -/
def jsonArrItems : List JSValue → List String
  | [] => []
  | v :: vs => ((jsonStringify v).getD "null") :: jsonArrItems vs

/-- Object members: a field whose value stringifies to `undefined` is
omitted. -/
def jsonObjItems : List (String × JSValue) → List String
  | [] => []
  | (k, v) :: fs =>
    match jsonStringify v with
    | none => jsonObjItems fs
    | some sv => (jsonQuote k ++ ":" ++ sv) :: jsonObjItems fs

end

/-! ## The planning kernel (`ALNKernel.js`) -/

/-- The pattern is a prefix of the character list. -/
def startsWithL : List Char → List Char → Bool
  | [], _ => true
  | _ :: _, [] => false
  | p :: ps, c :: cs => (p == c) && startsWithL ps cs

/-- The pattern occurs as a contiguous sublist (the empty pattern always
occurs). -/
def occursInL (pat : List Char) : List Char → Bool
  | [] => pat.isEmpty
  | c :: cs => startsWithL pat (c :: cs) || occursInL pat cs

/-- `String.prototype.includes`: substring containment. -/
def jsIncludes (s pat : String) : Bool :=
  occursInL pat.data s.data

/-- `String.prototype.toLowerCase`.  JavaScript lowercases the full Unicode
range; every keyword the kernel searches for is ASCII, where `Char.toLower`
agrees. -/
def jsToLower (s : String) : String :=
  String.mk (s.data.map Char.toLower)

/-- `String.prototype.trim`: strip leading and trailing whitespace (the
extra Unicode space characters JavaScript also strips are not modelled; no
claim depends on them). -/
def jsTrim (s : String) : String :=
  String.mk (((s.data.dropWhile Char.isWhitespace).reverse.dropWhile
    Char.isWhitespace).reverse)

/-- Kernel instance state.  The constructor guarantees
`maxReplicationHours` passes `Number.isFinite` (else it becomes 24), so it is
modelled as a rational; it is *not* guaranteed positive.  The logger is a
swallowed no-op side channel and is not modelled. -/
structure ALNKernel where
  modelId : String
  maxReplicationHours : ℚ
deriving DecidableEq, Repr

/-- `new ALNKernel(options)` with an explicit optional model id and an
arbitrary `maxReplicationHours` option value. -/
def ALNKernel.new (modelIdOpt : JSValue) (maxReplicationHoursOpt : JSValue) : ALNKernel :=
  ⟨(match modelIdOpt with
    | .str s => if s = "" then "aln-runtime-v1" else s
    | v => if toBool v then jsToString v else "aln-runtime-v1"),
   (match maxReplicationHoursOpt with
    | .num (.finite q) => q
    | _ => 24)⟩

/-- `_generatePlanId(intentText, timestamp)`: first 16 hex characters of the
SHA-256 digest of `` `${intentText}::${timestamp}::${this.modelId}` ``. -/
def ALNKernel.generatePlanId (k : ALNKernel) (intentText timestamp : String) : String :=
  (sha256hex (utf8Bytes (intentText ++ "::" ++ timestamp ++ "::" ++ k.modelId))).take 16

/-- The merged-and-normalized constraint object, restricted to the seven
fields the kernel declares defaults for and later reads.  Keys a caller
spreads in beyond these seven survive in the JS object but are never read;
they are not carried in the model. -/
structure ConstraintRec where
  language : JSValue
  requireCompleteness : JSValue
  forbidPlaceholders : JSValue
  maxReplicationTimeHours : JSValue
  jurisdictions : JSValue
  providerPolicies : JSValue
  dataResidency : JSValue

/-- One field of the object spread `{ ...defaults, ...(constraints || {}) }`:
an own key of the constraints value wins (even with value `undefined`),
otherwise the default. -/
def mergeField (entries : List (String × JSValue)) (name : String) (deflt : JSValue) : JSValue :=
  match entries.lookup name with
  | some v => v
  | none => deflt

/-- `_normalizeConstraints(constraints)`: spread the defaults and the
constraints, then repair `maxReplicationTimeHours`, the two list fields, the
language, and the two boolean flags.  `dataResidency` is never repaired. -/
def ALNKernel.normalizeConstraints (k : ALNKernel) (constraints : JSValue) : ConstraintRec :=
  let entries := if toBool constraints then ownEntries constraints else []
  let m : ConstraintRec :=
    ⟨mergeField entries "language" (.str "JavaScript"),
     mergeField entries "requireCompleteness" (.bool true),
     mergeField entries "forbidPlaceholders" (.bool true),
     mergeField entries "maxReplicationTimeHours" (.num (.finite k.maxReplicationHours)),
     mergeField entries "jurisdictions" (.arr []),
     mergeField entries "providerPolicies" (.arr []),
     mergeField entries "dataResidency" .null⟩
  let mrt := match m.maxReplicationTimeHours with
    | .num (.finite q) =>
      if q ≤ 0 then JSValue.num (.finite k.maxReplicationHours) else .num (.finite q)
    | _ => JSValue.num (.finite k.maxReplicationHours)
  let jur := match m.jurisdictions with
    | .arr l => JSValue.arr l
    | _ => JSValue.arr []
  let pol := match m.providerPolicies with
    | .arr l => JSValue.arr l
    | _ => JSValue.arr []
  let lang := match m.language with
    | .str s => if jsTrim s = "" then JSValue.str "JavaScript" else JSValue.str (jsTrim s)
    | _ => JSValue.str "JavaScript"
  ⟨lang, .bool (toBool m.requireCompleteness), .bool (toBool m.forbidPlaceholders),
   mrt, jur, pol, m.dataResidency⟩

/-- `_inferIntentType(text)`: first matching case-insensitive keyword rule
wins. -/
def inferIntentType (text : String) : String :=
  let lower := jsToLower text
  if jsIncludes lower "workflow" || jsIncludes lower "github" then "ci_workflow"
  else if jsIncludes lower "repo" || jsIncludes lower "repository" then "repository_plan"
  else if jsIncludes lower "python" || jsIncludes lower "notebook" then "python_interop"
  else if jsIncludes lower "policy" || jsIncludes lower "compliance" then "policy_plan"
  else "general_plan"

/-- The cascade the `_matchALNIntents` loop body applies to one registry
entry (each `if` pushes and `continue`s, so an id is pushed at most once). -/
def intentMatches (lower : String) (id : String) (intent : IntentSpec) : Bool :=
  let description := jsToLower intent.description
  if jsIncludes description "repository" && jsIncludes lower "repo" then true
  else if jsIncludes id "interop_python" && jsIncludes lower "python" then true
  else if jsIncludes id "define_virtual_object" && jsIncludes lower "virtual" then true
  else if jsIncludes description "policy" && jsIncludes lower "policy" then true
  else false

/-- `_matchALNIntents(text)`: registry ids matched by the keyword cascade, in
registry order. -/
def matchALNIntents (text : String) : List String :=
  let lower := jsToLower text
  (ALNSpecIntents.filter (fun p => intentMatches lower p.1 p.2)).map Prod.fst

/-- `_inferEnvironmentHints(context)`: substring search over the lowercased
serialized context.  Its only call site guards on the context having at least
one own key, so the serialization is a string there; the `undefined` fallback
is unreachable at that call site. -/
def inferEnvironmentHints (context : JSValue) : JSValue :=
  let ctxString := jsToLower ((jsonStringify context).getD "undefined")
  let hasCI := jsIncludes ctxString "github" || jsIncludes ctxString "gitlab"
    || jsIncludes ctxString "ci"
  let ciProvider :=
    if hasCI then
      if jsIncludes ctxString "github" then JSValue.str "github_actions"
      else if jsIncludes ctxString "gitlab" then JSValue.str "gitlab_ci"
      else JSValue.str "generic_ci"
    else JSValue.null
  let hasKubernetes := jsIncludes ctxString "kubernetes" || jsIncludes ctxString "k8s"
  let hasNeuromorphic := jsIncludes ctxString "neuromorphic" || jsIncludes ctxString "bci"
    || jsIncludes ctxString "eeg"
  let runtime :=
    if jsIncludes ctxString "node.js" || jsIncludes ctxString "nodejs"
        || jsIncludes ctxString "node" then JSValue.str "node"
    else if jsIncludes ctxString "browser" then JSValue.str "browser"
    else JSValue.null
  .obj [("hasCI", .bool hasCI), ("hasKubernetes", .bool hasKubernetes),
        ("hasNeuromorphicHardware", .bool hasNeuromorphic),
        ("ciProvider", ciProvider), ("runtime", runtime)]

/-- `_buildIntegrityValidationRules(constraints)`. -/
def buildIntegrityValidationRules (constraints : ConstraintRec) : JSValue :=
  .obj [("requireCompleteness", constraints.requireCompleteness),
        ("forbidPlaceholders", constraints.forbidPlaceholders),
        ("disallowedPatterns", .arr [.str "TODO", .str "FIXME", .str "placeholder",
          .str "lorem ipsum", .str "<insert", .str "stub only"]),
        ("minLinesOfCode", .num (.finite 1))]

/-- One plan step: `{id, description, output, priority}`. -/
structure ALNPlanStep where
  id : String
  description : String
  output : JSValue
  priority : String

/-- `.length` of an array value (the normalized list fields are arrays). -/
def jsArrLength : JSValue → Nat
  | .arr l => l.length
  | _ => 0

/-- `_synthesizeSteps(intentText, intentType, constraints, context)`: push the
two unconditional leading steps, the gated compliance step, the integrity
step, the gated context step, and the replication step, in source order. -/
def synthesizeSteps (intentText : String) (intentType : JSValue)
    (constraints : ConstraintRec) (context : JSValue) : List ALNPlanStep :=
  [⟨"analyze-intent", "Classify intent and map to ALN intents.",
    .obj [("intentType", if toBool intentType then intentType
            else .str (inferIntentType intentText)),
          ("matchedALNIntents", .arr ((matchALNIntents intentText).map JSValue.str))],
    "high"⟩,
   ⟨"design-structure", "Design structures (files, workflows, compliance hooks).",
    .obj [("requiresRepoPlan", .bool true), ("language", constraints.language),
          ("replicationHours", constraints.maxReplicationTimeHours)],
    "high"⟩]
  ++ (if jsArrLength constraints.jurisdictions != 0
        || jsArrLength constraints.providerPolicies != 0 then
      [⟨"compliance-alignment", "Align plan with declared jurisdictions and policies.",
        .obj [("jurisdictions", constraints.jurisdictions),
              ("providerPolicies", constraints.providerPolicies),
              ("dataResidency", constraints.dataResidency)],
        "high"⟩]
      else [])
  ++ [⟨"enforce-integrity", "Require complete, placeholder-free code outputs.",
       .obj [("requireCompleteness", constraints.requireCompleteness),
             ("forbidPlaceholders", constraints.forbidPlaceholders),
             ("validationRules", buildIntegrityValidationRules constraints)],
       "medium"⟩]
  ++ (if (ownKeys (if toBool context then context else .obj [])).length > 0 then
      [⟨"context-alignment", "Align plan with host system context (chat, CI, runtime).",
        .obj [("contextKeys", .arr ((ownKeys context).map JSValue.str)),
              ("environmentHints", inferEnvironmentHints context)],
        "medium"⟩]
      else [])
  ++ [⟨"replication-strategy", "Guarantee 24-hour replication for a motivated developer.",
       .obj [("replicationGuaranteeHours", constraints.maxReplicationTimeHours),
             ("assumptions", .arr [.str "Node.js LTS and Git available.",
               .str "GitHub or equivalent git host accessible."]),
             ("developerProfile", .str "motivated_single_developer")],
       "medium"⟩]

/-- `constraints.maxReplicationTimeHours <= 24`: after normalization the field
is a finite number, which is the only case the comparison is reached with. -/
def jsNumLe (v : JSValue) (bound : ℚ) : Bool :=
  match v with
  | .num (.finite q) => q ≤ bound
  | _ => false

/-- `_deriveAssumptions(intentText, constraints)`. -/
def deriveAssumptions (intentText : String) (constraints : ConstraintRec) : List String :=
  ["Outputs are intended for open-source or auditable environments.",
   "Target implementation language is " ++ jsToString constraints.language ++ "."]
  ++ (if jsNumLe constraints.maxReplicationTimeHours 24 then
      ["A motivated developer can reproduce outputs within 24 hours."] else [])
  ++ (if jsArrLength constraints.jurisdictions != 0 then
      ["Plans must satisfy the strictest overlapping jurisdictional constraints."] else [])
  ++ (if jsIncludes (jsToLower intentText) "github" then
      ["GitHub Actions or compatible CI is available."] else [])

/-- `_deriveRisks(intentText)`. -/
def deriveRisks (intentText : String) : List String :=
  let lower := jsToLower intentText
  ["Risk of over-engineering structure for simple tasks."]
  ++ (if jsIncludes lower "neuro" || jsIncludes lower "bci" || jsIncludes lower "eeg" then
      ["Neurotech contexts require medical, ethical, and privacy reviews."] else [])
  ++ (if jsIncludes lower "pii" || jsIncludes lower "personal data" then
      ["Personal data processing must follow privacy and data protection rules."] else [])
  ++ (if jsIncludes lower "safety" || jsIncludes lower "critical" then
      ["Safety-critical systems require independent validation and redundancy."] else [])

/-- `_deriveTradeoffs()`. -/
def deriveTradeoffs : List String :=
  ["Favor explicit compliance boundaries over opaque behavior.",
   "Prefer auditability and reproducibility over micro-optimizations.",
   "Prioritize cross-environment determinism over environment-specific hacks."]

/-- The per-plan transparency trail. -/
structure ALNTransparencyTrail where
  planId : String
  modelId : String
  intentText : String
  intentType : JSValue
  constraints : ConstraintRec
  createdAt : String
  assumptions : List String
  risks : List String
  tradeoffs : List String

/-- The value `reason` returns. -/
structure ALNPlanResult where
  planId : String
  steps : List ALNPlanStep
  transparencyTrail : ALNTransparencyTrail

/-- `reason(intentText, intentType, constraints, context)`, with the wall
clock passed explicitly as the ISO timestamp `now`.  The only failure is a
non-empty-string check on `intentText` (modelled as a `String`, so the check
is emptiness); logging is a swallowed no-op and is not modelled. -/
def ALNKernel.reason (k : ALNKernel) (intentText : String) (intentType : JSValue)
    (constraints : JSValue) (context : JSValue) (now : String) :
    Except String ALNPlanResult :=
  if intentText = "" then
    .error "ALNKernel.reason: intentText must be a non-empty string."
  else
    let timestamp := now
    let planId := k.generatePlanId intentText timestamp
    let normalized := k.normalizeConstraints constraints
    let resolvedIntentType :=
      if toBool intentType then intentType else .str (inferIntentType intentText)
    let steps := synthesizeSteps intentText resolvedIntentType normalized
      (if toBool context then context else .obj [])
    let transparencyTrail : ALNTransparencyTrail :=
      ⟨planId, k.modelId, intentText, resolvedIntentType, normalized, timestamp,
       deriveAssumptions intentText normalized, deriveRisks intentText, deriveTradeoffs⟩
    .ok ⟨planId, steps, transparencyTrail⟩

/-! ## Spec-side predicates and projection helpers used to state the claims -/

/-- The value is a string (`typeof === "string"`). -/
def isStringV (v : JSValue) : Prop := ∃ s, v = JSValue.str s

/-- The value is a finite number (`typeof === "number" && Number.isFinite`). -/
def isFiniteNumberV (v : JSValue) : Prop := ∃ q, v = JSValue.num (.finite q)

/-- The value is a boolean. -/
def isBooleanV (v : JSValue) : Prop := ∃ b, v = JSValue.bool b

/-- The value is a non-null non-array object. -/
def isPlainObjectV (v : JSValue) : Prop := ∃ fs, v = JSValue.obj fs

/-- The value is an array. -/
def isArrayV (v : JSValue) : Prop := ∃ es, v = JSValue.arr es

/-- The value is a non-null structured value
(`typeof === "object" && value !== null`: a plain object or an array). -/
def isStructuredV (v : JSValue) : Prop := isPlainObjectV v ∨ isArrayV v

/-- Boolean test: the value is a string. -/
def isStringB : JSValue → Bool
  | .str _ => true
  | _ => false

/-- Boolean test: every element of an array value is a string. -/
def allStringsB : JSValue → Bool
  | .arr l => l.all isStringB
  | _ => false

/-- Boolean test: the value is `null`. -/
def isNullB : JSValue → Bool
  | .null => true
  | _ => false

/-- The nine primitive tags of the closed set. -/
def allPrimitiveTags : List String :=
  [ALNPrimitives.STRING, ALNPrimitives.NUMBER, ALNPrimitives.BOOLEAN,
   ALNPrimitives.OBJECT, ALNPrimitives.ARRAY, ALNPrimitives.VIRTUAL_OBJECT,
   ALNPrimitives.INTENT, ALNPrimitives.PLAN, ALNPrimitives.SIGNAL]

/-- The four structured tags. -/
def structuredTags : List String :=
  [ALNPrimitives.VIRTUAL_OBJECT, ALNPrimitives.INTENT, ALNPrimitives.PLAN,
   ALNPrimitives.SIGNAL]

/-- The plan id of a `reason` outcome, when it succeeded. -/
def planIdOf : Except String ALNPlanResult → Option String
  | .ok r => some r.planId
  | .error _ => none

/-- The step-id list of a `reason` outcome, when it succeeded. -/
def stepIdsOf : Except String ALNPlanResult → Option (List String)
  | .ok r => some (r.steps.map ALNPlanStep.id)
  | .error _ => none

/-- The resolved intent type recorded in the transparency trail, when
`reason` succeeded. -/
def intentTypeOf : Except String ALNPlanResult → Option JSValue
  | .ok r => some r.transparencyTrail.intentType
  | .error _ => none

/-- A kernel built with no options: `new ALNKernel()`. -/
def defaultKernel : ALNKernel := ⟨"aln-runtime-v1", 24⟩

/-- Constraints input whose `jurisdictions` holds a non-string element and
whose `dataResidency` is a number. -/
def c4input : JSValue :=
  .obj [("jurisdictions", .arr [.num (.finite 1)]),
        ("dataResidency", .num (.finite 42))]

/-- A payload that satisfies the `aln::plan_repository` input shape. -/
def c8payload : JSValue :=
  .obj [("description", .str "d"), ("constraints", .obj [])]

/-- An intent-request message whose `intent` field is a number: it violates
both intent rules (not a non-empty string, and not a registered name). -/
def c3fields : List (String × JSValue) :=
  [("id", .str "m1"), ("kind", .str "aln::intent_request"),
   ("timestamp", .num (.finite 0)), ("payload", .obj []),
   ("intent", .num (.finite 5))]

/-! ## Theorems -/

/-- `validatePrimitive` is total and coherent: it succeeds exactly when it
reports no error. -/
theorem validatePrimitive_valid_iff_error_none (value : JSValue) (tag : String) :
    (validatePrimitive value tag).valid = true ↔ (validatePrimitive value tag).error = none := by
  unfold validatePrimitive
  split_ifs <;>
    (cases value with
     | undefined => simp
     | null => simp
     | bool b => simp
     | num n => cases n <;> simp
     | str s => simp
     | obj fs => simp
     | arr es => simp
     | func => simp)

/-- `validateShape` is total and coherent: it succeeds exactly when its error
list is empty. -/
theorem validateShape_valid_iff_errors_nil (payload : JSValue)
    (shape : List (String × String)) (allowExtraKeys : Bool) :
    (validateShape payload shape allowExtraKeys).valid = true ↔
      (validateShape payload shape allowExtraKeys).errors = [] := by
  cases payload <;> simp [validateShape, List.length_eq_zero]

/-- `validateMessageEnvelope` is total and coherent: it succeeds exactly when
its error list is empty. -/
theorem validateMessageEnvelope_valid_iff_errors_nil (message : JSValue) :
    (validateMessageEnvelope message).valid = true ↔
      (validateMessageEnvelope message).errors = [] := by
  cases message <;> simp [validateMessageEnvelope, List.length_eq_zero]

/-- Sanity check of the SHA-256 embedding: FIPS 180-4 test vector for the
empty message. -/
theorem sha256_empty_vector :
    sha256hex (utf8Bytes "") =
      "e3b0c44298fc1c149afbf4c8996fb92427ae41e4649b934ca495991b7852b855" := by
  decide

/-- Sanity check of the SHA-256 embedding: FIPS 180-4 test vector for
`"abc"`. -/
theorem sha256_abc_vector :
    sha256hex (utf8Bytes "abc") =
      "ba7816bf8f01cfea414140de5dae2223b00361a396177a9cb410ff61f20015ad" := by
  decide

/-- C2: `validatePrimitive(value, tag)` returns `valid=true` iff the value's
runtime shape matches the tag's structural rule — string for `aln::string`;
finite number (NaN/Infinity rejected) for `aln::number`; boolean for
`aln::boolean`; non-null non-array object for `aln::object`; array for
`aln::array`; non-null structured value for the four structured tags — and
every tag outside this closed set yields `valid=false`. -/
theorem claim_C2 (v : JSValue) :
    ((validatePrimitive v ALNPrimitives.STRING).valid = true ↔ isStringV v)
    ∧ ((validatePrimitive v ALNPrimitives.NUMBER).valid = true ↔ isFiniteNumberV v)
    ∧ ((validatePrimitive v ALNPrimitives.BOOLEAN).valid = true ↔ isBooleanV v)
    ∧ ((validatePrimitive v ALNPrimitives.OBJECT).valid = true ↔ isPlainObjectV v)
    ∧ ((validatePrimitive v ALNPrimitives.ARRAY).valid = true ↔ isArrayV v)
    ∧ ((validatePrimitive v ALNPrimitives.VIRTUAL_OBJECT).valid = true ↔ isStructuredV v)
    ∧ ((validatePrimitive v ALNPrimitives.INTENT).valid = true ↔ isStructuredV v)
    ∧ ((validatePrimitive v ALNPrimitives.PLAN).valid = true ↔ isStructuredV v)
    ∧ ((validatePrimitive v ALNPrimitives.SIGNAL).valid = true ↔ isStructuredV v)
    ∧ (∀ tag : String, tag ∉ allPrimitiveTags → (validatePrimitive v tag).valid = false) := by
  refine ⟨?_, ?_, ?_, ?_, ?_, ?_, ?_, ?_, ?_, ?_⟩
  case _ =>
    cases v <;>
      simp [validatePrimitive, isStringV, ALNPrimitives.STRING, ALNPrimitives.NUMBER,
        ALNPrimitives.BOOLEAN, ALNPrimitives.OBJECT, ALNPrimitives.ARRAY,
        ALNPrimitives.VIRTUAL_OBJECT, ALNPrimitives.INTENT, ALNPrimitives.PLAN,
        ALNPrimitives.SIGNAL]
  case _ =>
    cases v with
    | num n =>
      cases n <;>
        simp [validatePrimitive, isFiniteNumberV, ALNPrimitives.STRING, ALNPrimitives.NUMBER]
    | _ =>
      simp [validatePrimitive, isFiniteNumberV, ALNPrimitives.STRING, ALNPrimitives.NUMBER]
  case _ =>
    cases v <;>
      simp [validatePrimitive, isBooleanV, ALNPrimitives.STRING, ALNPrimitives.NUMBER,
        ALNPrimitives.BOOLEAN]
  case _ =>
    cases v <;>
      simp [validatePrimitive, isPlainObjectV, ALNPrimitives.STRING, ALNPrimitives.NUMBER,
        ALNPrimitives.BOOLEAN, ALNPrimitives.OBJECT]
  case _ =>
    cases v <;>
      simp [validatePrimitive, isArrayV, ALNPrimitives.STRING, ALNPrimitives.NUMBER,
        ALNPrimitives.BOOLEAN, ALNPrimitives.OBJECT, ALNPrimitives.ARRAY]
  case _ =>
    cases v <;>
      simp [validatePrimitive, isStructuredV, isPlainObjectV, isArrayV,
        ALNPrimitives.STRING, ALNPrimitives.NUMBER, ALNPrimitives.BOOLEAN,
        ALNPrimitives.OBJECT, ALNPrimitives.ARRAY, ALNPrimitives.VIRTUAL_OBJECT]
  case _ =>
    cases v <;>
      simp [validatePrimitive, isStructuredV, isPlainObjectV, isArrayV,
        ALNPrimitives.STRING, ALNPrimitives.NUMBER, ALNPrimitives.BOOLEAN,
        ALNPrimitives.OBJECT, ALNPrimitives.ARRAY, ALNPrimitives.VIRTUAL_OBJECT,
        ALNPrimitives.INTENT]
  case _ =>
    cases v <;>
      simp [validatePrimitive, isStructuredV, isPlainObjectV, isArrayV,
        ALNPrimitives.STRING, ALNPrimitives.NUMBER, ALNPrimitives.BOOLEAN,
        ALNPrimitives.OBJECT, ALNPrimitives.ARRAY, ALNPrimitives.VIRTUAL_OBJECT,
        ALNPrimitives.INTENT, ALNPrimitives.PLAN]
  case _ =>
    cases v <;>
      simp [validatePrimitive, isStructuredV, isPlainObjectV, isArrayV,
        ALNPrimitives.STRING, ALNPrimitives.NUMBER, ALNPrimitives.BOOLEAN,
        ALNPrimitives.OBJECT, ALNPrimitives.ARRAY, ALNPrimitives.VIRTUAL_OBJECT,
        ALNPrimitives.INTENT, ALNPrimitives.PLAN, ALNPrimitives.SIGNAL]
  case _ =>
    intro tag htag
    simp only [allPrimitiveTags, List.mem_cons, List.not_mem_nil, or_false] at htag
    push_neg at htag
    obtain ⟨h1, h2, h3, h4, h5, h6, h7, h8, h9⟩ := htag
    cases v <;>
      simp [validatePrimitive, h1, h2, h3, h4, h5, h6, h7, h8, h9]

/-- Witness for C2 at concrete inputs: a string passes the string tag, and an
unknown tag is rejected. -/
theorem claim_C2_witness :
    (validatePrimitive (.str "a") ALNPrimitives.STRING).valid = true
    ∧ (validatePrimitive (.str "a") "bogus").valid = false :=
  ⟨(claim_C2 (.str "a")).1.mpr ⟨"a", rfl⟩,
   (claim_C2 (.str "a")).2.2.2.2.2.2.2.2.2 "bogus" (by decide)⟩

/-- C10: every array value passes `validatePrimitive` under each of the four
structured tags (their rule only requires a non-null object, which an array
satisfies), while the same array is rejected under `aln::object`; hence a
shape field declared with a structured tag accepts an array value through
`validateShape`. -/
theorem claim_C10 (elems : List JSValue) :
    (validatePrimitive (.arr elems) ALNPrimitives.VIRTUAL_OBJECT).valid = true
    ∧ (validatePrimitive (.arr elems) ALNPrimitives.INTENT).valid = true
    ∧ (validatePrimitive (.arr elems) ALNPrimitives.PLAN).valid = true
    ∧ (validatePrimitive (.arr elems) ALNPrimitives.SIGNAL).valid = true
    ∧ (validatePrimitive (.arr elems) ALNPrimitives.OBJECT).valid = false
    ∧ (∀ field tag, tag ∈ structuredTags →
        (validateShape (.obj [(field, .arr elems)]) [(field, tag)] false).valid = true) := by
  refine ⟨rfl, rfl, rfl, rfl, rfl, ?_⟩
  intro field tag htag
  have hprim : (validatePrimitive (.arr elems) tag).valid = true := by
    simp only [structuredTags, List.mem_cons, List.not_mem_nil, or_false] at htag
    rcases htag with rfl | rfl | rfl | rfl <;> rfl
  simp [validateShape, shapeFieldError, jsIn, jsIndex, extraKeyErrors, hprim]

/-- Witness for C10 at a concrete input: the one-field shape with the
`aln::virtual_object` tag accepts an array payload. -/
theorem claim_C10_witness :
    (validateShape (.obj [("entry", .arr [])])
      [("entry", ALNPrimitives.VIRTUAL_OBJECT)] false).valid = true :=
  (claim_C10 []).2.2.2.2.2 "entry" ALNPrimitives.VIRTUAL_OBJECT (by decide)

/-- The per-field loop body of `validateShape` pushes nothing exactly when
the field is present and its value passes the primitive check. -/
theorem shapeFieldError_eq_none (fields : List (String × JSValue)) (fp : String × String) :
    shapeFieldError fields fp = none ↔
      jsIn fields fp.1 = true
      ∧ (validatePrimitive (jsIndex fields fp.1) fp.2).valid = true := by
  unfold shapeFieldError
  cases h : jsIn fields fp.1 with
  | false => simp [h]
  | true =>
    cases hr : (validatePrimitive (jsIndex fields fp.1) fp.2).valid <;> simp [h, hr]

/-- The shape loop of `validateShape` pushes exactly one error per
`in`-absent field plus one per present-but-invalid field. -/
theorem shapeErrors_length (fields : List (String × JSValue))
    (shape : List (String × String)) :
    (shape.filterMap (shapeFieldError fields)).length =
      shape.countP (fun fp => !(jsIn fields fp.1))
      + shape.countP (fun fp => jsIn fields fp.1
          && !(validatePrimitive (jsIndex fields fp.1) fp.2).valid) := by
  induction shape with
  | nil => simp
  | cons fp rest ih =>
    rw [List.filterMap_cons, List.countP_cons, List.countP_cons]
    cases h : jsIn fields fp.1 with
    | false =>
      simp [shapeFieldError, h, ih]
      omega
    | true =>
      cases hr : (validatePrimitive (jsIndex fields fp.1) fp.2).valid <;>
        (simp [shapeFieldError, h, hr, ih]; try omega)

/-- The extra-key loop of `validateShape` pushes exactly one error per
payload key not declared by the shape. -/
theorem extraKeyErrors_length (fields : List (String × JSValue))
    (shape : List (String × String)) :
    (extraKeyErrors fields shape false).length =
      (fields.map Prod.fst).countP (fun k => !((shape.map Prod.fst).contains k)) := by
  simp [extraKeyErrors, List.countP_eq_length_filter]

/-- C9: on every input whatsoever the validators are total functions into
structured results, and each result is coherent — the `valid` flag holds
exactly when no error was recorded (the embedding is total by construction,
which is the shallow counterpart of "never raises"). -/
theorem claim_C9 (value : JSValue) (tag : String) (payload : JSValue)
    (shape : List (String × String)) (allowExtraKeys : Bool) (message : JSValue) :
    ((validatePrimitive value tag).valid = true ↔ (validatePrimitive value tag).error = none)
    ∧ ((validateShape payload shape allowExtraKeys).valid = true ↔
        (validateShape payload shape allowExtraKeys).errors = [])
    ∧ ((validateMessageEnvelope message).valid = true ↔
        (validateMessageEnvelope message).errors = []) :=
  ⟨validatePrimitive_valid_iff_error_none value tag,
   validateShape_valid_iff_errors_nil payload shape allowExtraKeys,
   validateMessageEnvelope_valid_iff_errors_nil message⟩

/-- The extra-key loop pushes nothing exactly when every payload key is
declared by the shape. -/
theorem extraKeyErrors_eq_nil (fields : List (String × JSValue))
    (shape : List (String × String)) :
    extraKeyErrors fields shape false = [] ↔
      ∀ k ∈ fields.map Prod.fst, k ∈ shape.map Prod.fst := by
  simp only [extraKeyErrors, Bool.false_eq_true, if_false, List.map_eq_nil_iff,
    List.filter_eq_nil_iff]
  constructor
  · intro h k hk
    simpa using h k hk
  · intro h k hk
    simpa using h k hk

/-- C1 counterexample: a shape with the own key `"__proto__"` (constructible
through a computed key or `JSON.parse`) is validated against the empty
payload as `valid:true` with no errors — `"__proto__" in {}` holds through
the prototype chain and the get yields `Object.prototype`, a non-array
object — although the payload does not contain the shape's key, where the
claim requires `valid:false` with one missing-field error. -/
theorem claim_C1_counterexample :
    validateShape (.obj []) [("__proto__", ALNPrimitives.OBJECT)] false
      = ⟨true, []⟩
    ∧ (([] : List (String × JSValue)).lookup "__proto__") = none :=
  ⟨rfl, rfl⟩

/-- C1 (amended): with `allowExtraKeys=false`, `validateShape` succeeds iff
the payload is a non-array object where every shape key is present under
JavaScript's `in` — an own key, or an inherited `Object.prototype` member
such as `__proto__`/`toString` — with the looked-up (own or inherited) value
matching the tag, and no own key outside the shape; when it fails it reports
one error per `in`-absent field, one per present-but-wrong-typed field and
one per unexpected own key, all in one pass; on the concrete scenario
(whose field names are not prototype members) the error list is exactly the
one missing-`description` message. -/
theorem claim_C1 :
    (∀ (payload : JSValue) (shape : List (String × String)),
      (validateShape payload shape false).valid = true ↔
        ∃ fields, payload = .obj fields
          ∧ (∀ fp ∈ shape, jsIn fields fp.1 = true
              ∧ (validatePrimitive (jsIndex fields fp.1) fp.2).valid = true)
          ∧ (∀ k ∈ fields.map Prod.fst, k ∈ shape.map Prod.fst))
    ∧ (∀ (fields : List (String × JSValue)) (shape : List (String × String)),
      (validateShape (.obj fields) shape false).errors.length =
        shape.countP (fun fp => !(jsIn fields fp.1))
        + shape.countP (fun fp => jsIn fields fp.1
            && !(validatePrimitive (jsIndex fields fp.1) fp.2).valid)
        + (fields.map Prod.fst).countP (fun k => !((shape.map Prod.fst).contains k)))
    ∧ (validateShape (.obj [("name", .str "x")])
        [("name", ALNPrimitives.STRING), ("description", ALNPrimitives.STRING)]
        false).valid = false
    ∧ (validateShape (.obj [("name", .str "x")])
        [("name", ALNPrimitives.STRING), ("description", ALNPrimitives.STRING)]
        false).errors
      = ["Missing required field \"description\" (expected string)"] := by
  refine ⟨?_, ?_, by decide, by decide⟩
  · intro payload shape
    cases payload with
    | obj fields =>
      rw [validateShape_valid_iff_errors_nil]
      simp only [validateShape, List.append_eq_nil, List.filterMap_eq_nil_iff]
      constructor
      · rintro ⟨hfm, hex⟩
        exact ⟨fields, rfl,
          fun fp hfp => (shapeFieldError_eq_none fields fp).mp (hfm fp hfp),
          (extraKeyErrors_eq_nil fields shape).mp hex⟩
      · rintro ⟨fields2, heq, hall, hkeys⟩
        injection heq with hfe
        subst hfe
        exact ⟨fun fp hfp => (shapeFieldError_eq_none fields fp).mpr (hall fp hfp),
          (extraKeyErrors_eq_nil fields shape).mpr hkeys⟩
    | undefined => simp [validateShape]
    | null => simp [validateShape]
    | bool b => simp [validateShape]
    | num n => simp [validateShape]
    | str s => simp [validateShape]
    | arr es => simp [validateShape]
    | func => simp [validateShape]
  · intro fields shape
    simp only [validateShape, List.length_append]
    rw [shapeErrors_length, extraKeyErrors_length]

/-- C3 counterexample: an intent-request whose `intent` is the number 5
violates both intent rules, yet `validateMessageEnvelope` reports exactly one
intent error (the `else if` in the source short-circuits the registry check),
not the two errors the claim asserts. -/
theorem claim_C3_counterexample :
    (validateMessageEnvelope (.obj c3fields)).errors
      = ["Field \"intent\" must be a non-empty string for kind aln::intent_request"]
    ∧ (validateMessageEnvelope (.obj c3fields)).errors.length = 1 :=
  ⟨rfl, rfl⟩

/-- C3 (amended): for an intent-bearing kind, the intent rules contribute at
most one error — when the non-empty-string rule fails, exactly that one error
is reported (the registry rule is skipped by the `else if`), in addition to
the other accumulated violations; the unknown-intent error appears only for
a non-empty string name on which `ALNSpec.intents[name]` is falsy, i.e. one
that neither names a registered intent nor collides with an inherited
`Object.prototype` member — a collision name such as `"toString"` is
unregistered yet produces no error at all. -/
theorem claim_C3 (fields : List (String × JSValue)) (k : String)
    (hk : intentKindOf fields = some k) :
    (isNonEmptyString (jsGet fields "intent") = false →
      envIntentErrors fields = [intentStringErrMsg k]
      ∧ (validateMessageEnvelope (.obj fields)).errors
          = envNonIntentErrors fields ++ [intentStringErrMsg k])
    ∧ (∀ s, jsGet fields "intent" = .str s → s ≠ "" →
        intentsMemberTruthy s = false →
        envIntentErrors fields = [unknownIntentErrMsg s k])
    ∧ (∀ s, jsGet fields "intent" = .str s → s ≠ "" →
        (ALNSpecIntents.lookup s).isSome = false →
        (protoLookup s).isSome = true →
        envIntentErrors fields = []) := by
  refine ⟨?_, ?_, ?_⟩
  · intro hne
    have hie : envIntentErrors fields = [intentStringErrMsg k] := by
      unfold envIntentErrors
      rw [hk]
      cases hv : jsGet fields "intent" with
      | str s =>
        rw [hv] at hne
        have hs : s = "" := by simpa [isNonEmptyString] using hne
        simp [hs]
      | undefined => rfl
      | null => rfl
      | bool b => rfl
      | num n => rfl
      | obj fs => rfl
      | arr es => rfl
      | func => rfl
    exact ⟨hie, by simp [validateMessageEnvelope, hie]⟩
  · intro s hv hs hnl
    unfold envIntentErrors
    rw [hk, hv]
    simp [hs, hnl]
  · intro s hv hs hlk hp
    unfold envIntentErrors
    rw [hk, hv]
    simp [hs, intentsMemberTruthy, hlk, hp]

/-- Witness for C3 at the concrete message: the intent rules contribute
exactly the one non-empty-string error. -/
theorem claim_C3_witness :
    envIntentErrors c3fields = [intentStringErrMsg "aln::intent_request"] :=
  ((claim_C3 c3fields "aln::intent_request" rfl).1 rfl).1

/-- Flattened form of the `language` field of `_normalizeConstraints`. -/
theorem normalizeConstraints_language (k : ALNKernel) (c : JSValue) :
    (k.normalizeConstraints c).language =
      match mergeField (if toBool c then ownEntries c else []) "language"
          (.str "JavaScript") with
      | .str s => if jsTrim s = "" then JSValue.str "JavaScript" else JSValue.str (jsTrim s)
      | _ => JSValue.str "JavaScript" := rfl

/-- Flattened form of the `requireCompleteness` field. -/
theorem normalizeConstraints_requireCompleteness (k : ALNKernel) (c : JSValue) :
    (k.normalizeConstraints c).requireCompleteness =
      .bool (toBool (mergeField (if toBool c then ownEntries c else [])
        "requireCompleteness" (.bool true))) := rfl

/-- Flattened form of the `forbidPlaceholders` field. -/
theorem normalizeConstraints_forbidPlaceholders (k : ALNKernel) (c : JSValue) :
    (k.normalizeConstraints c).forbidPlaceholders =
      .bool (toBool (mergeField (if toBool c then ownEntries c else [])
        "forbidPlaceholders" (.bool true))) := rfl

/-- Flattened form of the `maxReplicationTimeHours` field. -/
theorem normalizeConstraints_maxRep (k : ALNKernel) (c : JSValue) :
    (k.normalizeConstraints c).maxReplicationTimeHours =
      match mergeField (if toBool c then ownEntries c else [])
          "maxReplicationTimeHours" (.num (.finite k.maxReplicationHours)) with
      | .num (.finite q) =>
        if q ≤ 0 then JSValue.num (.finite k.maxReplicationHours)
        else JSValue.num (.finite q)
      | _ => JSValue.num (.finite k.maxReplicationHours) := rfl

/-- Flattened form of the `jurisdictions` field. -/
theorem normalizeConstraints_jurisdictions (k : ALNKernel) (c : JSValue) :
    (k.normalizeConstraints c).jurisdictions =
      match mergeField (if toBool c then ownEntries c else [])
          "jurisdictions" (.arr []) with
      | .arr l => JSValue.arr l
      | _ => JSValue.arr [] := rfl

/-- Flattened form of the `providerPolicies` field. -/
theorem normalizeConstraints_providerPolicies (k : ALNKernel) (c : JSValue) :
    (k.normalizeConstraints c).providerPolicies =
      match mergeField (if toBool c then ownEntries c else [])
          "providerPolicies" (.arr []) with
      | .arr l => JSValue.arr l
      | _ => JSValue.arr [] := rfl

/-- Flattened form of the `dataResidency` field: merged and never repaired. -/
theorem normalizeConstraints_dataResidency (k : ALNKernel) (c : JSValue) :
    (k.normalizeConstraints c).dataResidency =
      mergeField (if toBool c then ownEntries c else []) "dataResidency" .null := rfl

/-- C4 counterexample: with `jurisdictions: [1]` and `dataResidency: 42`, the
normalized constraint set keeps the non-string list element and the numeric
`dataResidency` — the normalized set does not satisfy "sequences of strings"
nor "string or absent", refuting the claim as stated. -/
theorem claim_C4_counterexample :
    (defaultKernel.normalizeConstraints c4input).dataResidency = .num (.finite 42)
    ∧ isStringB (defaultKernel.normalizeConstraints c4input).dataResidency = false
    ∧ isNullB (defaultKernel.normalizeConstraints c4input).dataResidency = false
    ∧ (defaultKernel.normalizeConstraints c4input).jurisdictions
        = .arr [.num (.finite 1)]
    ∧ allStringsB (defaultKernel.normalizeConstraints c4input).jurisdictions = false :=
  ⟨rfl, rfl, rfl, rfl, rfl⟩

/-- C4 (amended): for every constraints argument, on a kernel whose default
replication bound is positive, the normalized set has a non-empty-string
language, boolean flags, a positive finite replication bound (replaced by the
kernel default, not clamped), and array-valued `jurisdictions` /
`providerPolicies` (coerced to empty arrays when not arrays, element types not
checked); `dataResidency` is passed through unchecked and defaults to null
when absent — each default applied independently. -/
theorem claim_C4 (k : ALNKernel) (hpos : 0 < k.maxReplicationHours) (constraints : JSValue) :
    (∃ s, (k.normalizeConstraints constraints).language = .str s ∧ s ≠ "")
    ∧ (∃ b, (k.normalizeConstraints constraints).requireCompleteness = .bool b)
    ∧ (∃ b, (k.normalizeConstraints constraints).forbidPlaceholders = .bool b)
    ∧ (∃ q, (k.normalizeConstraints constraints).maxReplicationTimeHours
          = .num (.finite q) ∧ 0 < q)
    ∧ (∃ l, (k.normalizeConstraints constraints).jurisdictions = .arr l)
    ∧ (∃ l, (k.normalizeConstraints constraints).providerPolicies = .arr l)
    ∧ ((if toBool constraints then ownEntries constraints else []).lookup
          "dataResidency" = none →
        (k.normalizeConstraints constraints).dataResidency = .null) := by
  refine ⟨?_, ⟨_, normalizeConstraints_requireCompleteness k constraints⟩,
    ⟨_, normalizeConstraints_forbidPlaceholders k constraints⟩, ?_, ?_, ?_, ?_⟩
  · rw [normalizeConstraints_language]
    cases mergeField (if toBool constraints then ownEntries constraints else [])
        "language" (.str "JavaScript") with
    | str s =>
      by_cases h : jsTrim s = ""
      · exact ⟨"JavaScript", by simp [h], by decide⟩
      · exact ⟨jsTrim s, by simp [h], h⟩
    | undefined => exact ⟨"JavaScript", rfl, by decide⟩
    | null => exact ⟨"JavaScript", rfl, by decide⟩
    | bool b => exact ⟨"JavaScript", rfl, by decide⟩
    | num n => exact ⟨"JavaScript", rfl, by decide⟩
    | obj fs => exact ⟨"JavaScript", rfl, by decide⟩
    | arr es => exact ⟨"JavaScript", rfl, by decide⟩
    | func => exact ⟨"JavaScript", rfl, by decide⟩
  · rw [normalizeConstraints_maxRep]
    cases mergeField (if toBool constraints then ownEntries constraints else [])
        "maxReplicationTimeHours" (.num (.finite k.maxReplicationHours)) with
    | num n =>
      cases n with
      | finite q =>
        by_cases h : q ≤ 0
        · exact ⟨k.maxReplicationHours, by simp [h], hpos⟩
        · exact ⟨q, by simp [h], lt_of_not_le h⟩
      | nan => exact ⟨k.maxReplicationHours, rfl, hpos⟩
      | inf => exact ⟨k.maxReplicationHours, rfl, hpos⟩
      | negInf => exact ⟨k.maxReplicationHours, rfl, hpos⟩
    | undefined => exact ⟨k.maxReplicationHours, rfl, hpos⟩
    | null => exact ⟨k.maxReplicationHours, rfl, hpos⟩
    | bool b => exact ⟨k.maxReplicationHours, rfl, hpos⟩
    | str s => exact ⟨k.maxReplicationHours, rfl, hpos⟩
    | obj fs => exact ⟨k.maxReplicationHours, rfl, hpos⟩
    | arr es => exact ⟨k.maxReplicationHours, rfl, hpos⟩
    | func => exact ⟨k.maxReplicationHours, rfl, hpos⟩
  · rw [normalizeConstraints_jurisdictions]
    cases mergeField (if toBool constraints then ownEntries constraints else [])
        "jurisdictions" (.arr []) with
    | arr l => exact ⟨l, rfl⟩
    | undefined => exact ⟨[], rfl⟩
    | null => exact ⟨[], rfl⟩
    | bool b => exact ⟨[], rfl⟩
    | num n => exact ⟨[], rfl⟩
    | str s => exact ⟨[], rfl⟩
    | obj fs => exact ⟨[], rfl⟩
    | func => exact ⟨[], rfl⟩
  · rw [normalizeConstraints_providerPolicies]
    cases mergeField (if toBool constraints then ownEntries constraints else [])
        "providerPolicies" (.arr []) with
    | arr l => exact ⟨l, rfl⟩
    | undefined => exact ⟨[], rfl⟩
    | null => exact ⟨[], rfl⟩
    | bool b => exact ⟨[], rfl⟩
    | num n => exact ⟨[], rfl⟩
    | str s => exact ⟨[], rfl⟩
    | obj fs => exact ⟨[], rfl⟩
    | func => exact ⟨[], rfl⟩
  · intro hnone
    rw [normalizeConstraints_dataResidency]
    unfold mergeField
    rw [hnone]

/-- Witness for C4 on the default kernel with no constraints argument. -/
theorem claim_C4_witness :
    ∃ s, (defaultKernel.normalizeConstraints .undefined).language = .str s ∧ s ≠ "" :=
  (claim_C4 defaultKernel (by norm_num [defaultKernel]) .undefined).1

/-- C5: with a frozen clock, any two `reason` calls with the same intent text
on kernels sharing a model id yield the same plan id, equal to the first 16
hex characters of the SHA-256 digest of `intentText::timestamp::modelId`; and
at a concrete frozen input, changing the model id changes the plan id. -/
theorem claim_C5 :
    (∀ (k₁ k₂ : ALNKernel) (text : String) (it₁ it₂ c₁ c₂ ctx₁ ctx₂ : JSValue)
      (ts : String), k₁.modelId = k₂.modelId →
      planIdOf (k₁.reason text it₁ c₁ ctx₁ ts) = planIdOf (k₂.reason text it₂ c₂ ctx₂ ts)
      ∧ (text ≠ "" → planIdOf (k₁.reason text it₁ c₁ ctx₁ ts)
          = some ((sha256hex (utf8Bytes (text ++ "::" ++ ts ++ "::" ++ k₁.modelId))).take 16)))
    ∧ ALNKernel.generatePlanId ⟨"aln-runtime-v1", 24⟩ "deploy service"
        "2024-01-02T03:04:05.000Z"
      ≠ ALNKernel.generatePlanId ⟨"other-model", 24⟩ "deploy service"
        "2024-01-02T03:04:05.000Z" := by
  constructor
  · intro k₁ k₂ text it₁ it₂ c₁ c₂ ctx₁ ctx₂ ts hm
    by_cases ht : text = ""
    · simp [ALNKernel.reason, ht, planIdOf]
    · constructor
      · simp [ALNKernel.reason, ht, planIdOf, ALNKernel.generatePlanId, hm]
      · intro _
        simp [ALNKernel.reason, ht, planIdOf, ALNKernel.generatePlanId]
  · decide

/-- Witness for C5 at a concrete frozen clock: two calls with different
intent types and constraints agree on the plan id, and the id is the
truncated SHA-256 digest. -/
theorem claim_C5_witness :
    planIdOf (defaultKernel.reason "deploy service" (.str "x") .undefined .undefined
        "2024-01-02T03:04:05.000Z")
      = planIdOf (defaultKernel.reason "deploy service" .undefined (.obj []) .undefined
        "2024-01-02T03:04:05.000Z")
    ∧ planIdOf (defaultKernel.reason "deploy service" (.str "x") .undefined .undefined
        "2024-01-02T03:04:05.000Z")
      = some ((sha256hex (utf8Bytes ("deploy service" ++ "::"
          ++ "2024-01-02T03:04:05.000Z" ++ "::" ++ defaultKernel.modelId))).take 16) :=
  ⟨(claim_C5.1 defaultKernel defaultKernel "deploy service" (.str "x") .undefined .undefined
      (.obj []) .undefined .undefined "2024-01-02T03:04:05.000Z" rfl).1,
   (claim_C5.1 defaultKernel defaultKernel "deploy service" (.str "x") .undefined .undefined
      (.obj []) .undefined .undefined "2024-01-02T03:04:05.000Z" rfl).2 (by decide)⟩

/-- C6 counterexample: a caller-supplied empty-string `intentType` is present
but falsy, so `intentType || infer(...)` ignores it — `reason("Use python",
"")` resolves to `python_interop`, not to the supplied `""`, refuting the
claim for that input. -/
theorem claim_C6_counterexample :
    intentTypeOf (defaultKernel.reason "Use python" (.str "") .undefined .undefined "T")
      = some (.str "python_interop")
    ∧ ("python_interop" : String) ≠ "" :=
  ⟨rfl, by decide⟩

/-- C6 (amended): the resolved intent type equals the caller-supplied
`intentType` whenever a truthy (non-empty-string) one is present — an empty
string is falsy and falls back to inference; otherwise it is classified by
case-insensitive substring match in the fixed priority order
workflow/github, repo/repository, python/notebook, policy/compliance, else
`general_plan`; the concrete scenario resolves to `ci_workflow`. -/
theorem claim_C6 :
    (∀ (k : ALNKernel) (text s : String) (c ctx : JSValue) (ts : String),
      text ≠ "" → s ≠ "" →
      intentTypeOf (k.reason text (.str s) c ctx ts) = some (.str s))
    ∧ (∀ (k : ALNKernel) (text : String) (c ctx : JSValue) (ts : String),
      text ≠ "" →
      intentTypeOf (k.reason text .undefined c ctx ts) = some (.str (inferIntentType text)))
    ∧ (∀ text : String,
        ((jsIncludes (jsToLower text) "workflow" = true
            ∨ jsIncludes (jsToLower text) "github" = true) →
          inferIntentType text = "ci_workflow")
        ∧ (jsIncludes (jsToLower text) "workflow" = false →
            jsIncludes (jsToLower text) "github" = false →
            (jsIncludes (jsToLower text) "repo" = true
              ∨ jsIncludes (jsToLower text) "repository" = true) →
          inferIntentType text = "repository_plan")
        ∧ (jsIncludes (jsToLower text) "workflow" = false →
            jsIncludes (jsToLower text) "github" = false →
            jsIncludes (jsToLower text) "repo" = false →
            jsIncludes (jsToLower text) "repository" = false →
            (jsIncludes (jsToLower text) "python" = true
              ∨ jsIncludes (jsToLower text) "notebook" = true) →
          inferIntentType text = "python_interop")
        ∧ (jsIncludes (jsToLower text) "workflow" = false →
            jsIncludes (jsToLower text) "github" = false →
            jsIncludes (jsToLower text) "repo" = false →
            jsIncludes (jsToLower text) "repository" = false →
            jsIncludes (jsToLower text) "python" = false →
            jsIncludes (jsToLower text) "notebook" = false →
            (jsIncludes (jsToLower text) "policy" = true
              ∨ jsIncludes (jsToLower text) "compliance" = true) →
          inferIntentType text = "policy_plan")
        ∧ (jsIncludes (jsToLower text) "workflow" = false →
            jsIncludes (jsToLower text) "github" = false →
            jsIncludes (jsToLower text) "repo" = false →
            jsIncludes (jsToLower text) "repository" = false →
            jsIncludes (jsToLower text) "python" = false →
            jsIncludes (jsToLower text) "notebook" = false →
            jsIncludes (jsToLower text) "policy" = false →
            jsIncludes (jsToLower text) "compliance" = false →
          inferIntentType text = "general_plan"))
    ∧ inferIntentType "Plan a repository with a GitHub workflow" = "ci_workflow" := by
  refine ⟨?_, ?_, ?_, by decide⟩
  · intro k text s c ctx ts ht hs
    simp [ALNKernel.reason, ht, intentTypeOf, toBool, hs]
  · intro k text c ctx ts ht
    simp [ALNKernel.reason, ht, intentTypeOf, toBool]
  · intro text
    refine ⟨?_, ?_, ?_, ?_, ?_⟩
    · rintro (h | h) <;> simp [inferIntentType, h]
    · intro h1 h2 h3
      rcases h3 with h | h <;> simp [inferIntentType, h1, h2, h]
    · intro h1 h2 h3 h4 h5
      rcases h5 with h | h <;> simp [inferIntentType, h1, h2, h3, h4, h]
    · intro h1 h2 h3 h4 h5 h6 h7
      rcases h7 with h | h <;> simp [inferIntentType, h1, h2, h3, h4, h5, h6, h]
    · intro h1 h2 h3 h4 h5 h6 h7 h8
      simp [inferIntentType, h1, h2, h3, h4, h5, h6, h7, h8]

/-- Witness for C6: a truthy caller-supplied type wins at a concrete input,
and the concrete scenario classifies to `ci_workflow`. -/
theorem claim_C6_witness :
    intentTypeOf (defaultKernel.reason "deploy" (.str "custom_type") .undefined .undefined "T")
      = some (.str "custom_type")
    ∧ inferIntentType "Plan a repository with a GitHub workflow" = "ci_workflow" :=
  ⟨claim_C6.1 defaultKernel "deploy" "custom_type" .undefined .undefined "T"
      (by decide) (by decide),
   claim_C6.2.2.2⟩

/-- C7: every successful `reason` call returns its step ids in the fixed
order analyze-intent, design-structure, compliance-alignment,
enforce-integrity, context-alignment, replication-strategy, where
compliance-alignment is present iff the normalized jurisdictions or
providerPolicies list is non-empty and context-alignment is present iff the
(`|| {}`-guarded) context has at least one key; the other four steps are
always present. -/
theorem claim_C7 (k : ALNKernel) (text : String) (it c ctx : JSValue) (ts : String)
    (ht : text ≠ "") :
    stepIdsOf (k.reason text it c ctx ts) = some (
      ["analyze-intent", "design-structure"]
      ++ (if (jsArrLength (k.normalizeConstraints c).jurisdictions != 0
            || jsArrLength (k.normalizeConstraints c).providerPolicies != 0) = true then
          ["compliance-alignment"] else [])
      ++ ["enforce-integrity"]
      ++ (if (ownKeys (if toBool ctx then ctx else .obj [])).length > 0 then
          ["context-alignment"] else [])
      ++ ["replication-strategy"]) := by
  by_cases hctx : toBool ctx = true
  · simp [ALNKernel.reason, if_neg ht, stepIdsOf, synthesizeSteps, hctx,
      apply_ite (List.map ALNPlanStep.id)]
  · simp only [Bool.not_eq_true] at hctx
    have hobj : toBool (JSValue.obj []) = true := rfl
    simp [ALNKernel.reason, if_neg ht, stepIdsOf, synthesizeSteps, hctx, hobj,
      apply_ite (List.map ALNPlanStep.id)]

/-- Witness for C7 at a concrete call where both gated steps fire. -/
theorem claim_C7_witness :
    stepIdsOf (defaultKernel.reason "deploy" .undefined
        (.obj [("jurisdictions", .arr [.str "EU"])])
        (.obj [("env", .str "github")]) "T")
      = some ["analyze-intent", "design-structure", "compliance-alignment",
              "enforce-integrity", "context-alignment", "replication-strategy"] :=
  (claim_C7 defaultKernel "deploy" .undefined (.obj [("jurisdictions", .arr [.str "EU"])])
      (.obj [("env", .str "github")]) "T" (by decide)).trans rfl

/-- A payload that passes `validateShape` is an object. -/
theorem validateShape_valid_obj (payload : JSValue) (shape : List (String × String))
    (allowExtraKeys : Bool) :
    (validateShape payload shape allowExtraKeys).valid = true →
      ∃ fs, payload = .obj fs := by
  cases payload <;> simp [validateShape]

/-- A payload that passes `validateIntentInput` names a registered intent and
is an object. -/
theorem validateIntentInput_valid (intentName : String) (inputPayload : JSValue)
    (allowExtraKeys : Bool) :
    (validateIntentInput intentName inputPayload allowExtraKeys).valid = true →
      (ALNSpecIntents.lookup intentName).isSome = true
      ∧ ∃ fs, inputPayload = .obj fs := by
  unfold validateIntentInput
  cases h : ALNSpecIntents.lookup intentName with
  | none => simp
  | some intent =>
    intro hv
    exact ⟨rfl, validateShape_valid_obj inputPayload intent.inputShape allowExtraKeys hv⟩

/-- Every registered intent name is a non-empty string. -/
theorem lookup_intent_ne_empty (s : String) :
    (ALNSpecIntents.lookup s).isSome = true → s ≠ "" := by
  intro h hs
  subst hs
  exact absurd h (by decide)

/-- C8 counterexample: with the empty-string id, the input-shape validation
of the payload succeeds yet the envelope-level re-validation inside
`createIntentRequest` fails — the EnvelopeError branch is reachable after
shape validation has passed. -/
theorem claim_C8_counterexample :
    (validateIntentInput "aln::plan_repository" c8payload false).valid = true
    ∧ createIntentRequest (.str "") "aln::plan_repository" c8payload .undefined 0
        = .error (.envelopeError
            "Invalid envelope: Field \"id\" must be a non-empty string") :=
  ⟨rfl, rfl⟩

/-- C8 (amended): whenever the caller-supplied id is a non-empty string and
`meta` is falsy or a non-array object, a payload that passes the input-shape
validation makes the envelope-level re-validation succeed too, and
`createIntentRequest` returns the assembled intent-request envelope without
raising. -/
theorem claim_C8 (id : JSValue) (intentName : String) (inputPayload meta : JSValue)
    (now : ℚ) (hid : isNonEmptyString id = true)
    (hmeta : toBool meta = false ∨ ∃ fs, meta = .obj fs)
    (hval : (validateIntentInput intentName inputPayload false).valid = true) :
    createIntentRequest id intentName inputPayload meta now
      = .ok (intentRequestEnvelope id intentName now inputPayload meta) := by
  obtain ⟨hreg, fs, hpl⟩ := validateIntentInput_valid intentName inputPayload false hval
  subst hpl
  have hne : intentName ≠ "" := lookup_intent_ne_empty intentName hreg
  have hT : intentsMemberTruthy intentName = true := by
    simp [intentsMemberTruthy, hreg]
  have hok : (validateMessageEnvelope
      (intentRequestEnvelope id intentName now (.obj fs) meta)).valid = true := by
    rcases hmeta with hm | ⟨fs2, rfl⟩
    · simp +decide [intentRequestEnvelope, hm, validateMessageEnvelope,
        envNonIntentErrors, envIdErrors, envKindErrors, envTimestampErrors,
        envPayloadErrors, envMetaErrors, envIntentErrors, intentKindOf, jsGet,
        List.lookup, hid, hne, hT]
    · simp +decide [intentRequestEnvelope, validateMessageEnvelope,
        envNonIntentErrors, envIdErrors, envKindErrors, envTimestampErrors,
        envPayloadErrors, envMetaErrors, envIntentErrors, intentKindOf, jsGet,
        List.lookup, hid, hne, hT, toBool]
  simp [createIntentRequest, hval, hok]

/-- Witness for C8 at a concrete valid call. -/
theorem claim_C8_witness :
    createIntentRequest (.str "req-1") "aln::plan_repository" c8payload .undefined 0
      = .ok (intentRequestEnvelope (.str "req-1") "aln::plan_repository" 0
          c8payload .undefined) :=
  claim_C8 (.str "req-1") "aln::plan_repository" c8payload .undefined 0 rfl
    (Or.inl rfl) rfl

end ALN
